import Mathlib

/-!
Shallow embedding of the Rust-AutoGPT repository's two source files:

* `web-server/src/main.rs` — a weather fetch-and-serve service: a
  `Weather` record type, an `OpenWeatherMapClient` provider, a
  `Mutex<Vec<Weather>>` cache inside `AppState`, the `/weather` request
  handler `get_weather`, and the CORS configuration built in `main`.
* `src/apis/call_request.rs` — the standalone `call_gpt` utility that
  forwards a chat transcript to a completion API.

Outbound I/O (the reqwest transport, serde decoding of the upstream body,
header-value construction, client building) is modelled by explicit outcome
values passed to the embedded functions, which then follow the Rust control
flow exactly.  Rust panics are modelled as distinguished result values,
never as Lean partiality.
-/

namespace WebServer

/-- Embeds the Rust struct `Weather { id: u64, description: String,
temperature: f32 }`.  The `u64` identifier is a `Nat` (its numeric value),
and the `f32` temperature is a `Rat` carrying the numeric value; none of
the claims perform floating-point arithmetic on it, the field is only
stored and compared for identity. -/
structure Weather where
  id : Nat
  description : String
  temperature : Rat
deriving DecidableEq, Repr

/-- Embeds the provider-side failure `Box<dyn std::error::Error>` of
`OpenWeatherMapClient::get_weather`: the `?` on `send()` (transport
failure) and the `?` on `json()` (body fails to decode as
`Vec<Weather>`).  The Rust type is opaque; only the two points that
produce it are distinguished here. -/
inductive FetchError where
  | transport
  | decode
deriving DecidableEq, Repr

/-- Outcome of the outbound HTTP call made by
`OpenWeatherMapClient::get_weather`.  `transportError` is a failure of
`send().await` (connection refused, timeout, TLS failure).  `response
status decoded` is a completed HTTP exchange: `status` is the upstream
HTTP status code, and `decoded` is the result of `response.json::<Vec<Weather>>()`
on the body — `some ws` when the body decodes as a sequence of weather
records `ws`, `none` when it does not (malformed text, missing fields,
type mismatch).  The decode result is a function of the body alone:
reqwest's `json()` never inspects the status code. -/
inductive FetchOutcome where
  | transportError
  | response (status : Nat) (decoded : Option (List Weather))
deriving DecidableEq, Repr

namespace OpenWeatherMapClient

/-- Embeds `OpenWeatherMapClient::get_weather` (main.rs lines 32–36):
`send().await?` propagates a transport failure, `response.json().await?`
propagates a decode failure, and otherwise the decoded sequence is
returned unmodified with `Ok`.  The upstream status code is never
consulted. -/
def get_weather : FetchOutcome → Except FetchError (List Weather)
  | .transportError => .error .transport
  | .response _ none => .error .decode
  | .response _ (some ws) => .ok ws

end OpenWeatherMapClient

/-- State of the `Mutex<Vec<Weather>>` inside `AppState` (main.rs lines
15–17): the stored sequence together with the poison flag of
`std::sync::Mutex`.  The flag becomes set only when a thread panics while
holding the lock; `lock().unwrap()` panics exactly when the flag is
set. -/
structure MutexState where
  contents : List Weather
  poisoned : Bool
deriving DecidableEq, Repr

/-- The poisoning failure returned by `Mutex::lock` on a poisoned mutex;
the handler's `.unwrap()` turns it into a panic. -/
inductive LockError where
  | poisonError
deriving DecidableEq, Repr

/-- Embeds `Mutex::lock`: fails with a poison error when the mutex is
poisoned, otherwise grants access to the stored sequence. -/
def lock (m : MutexState) : Except LockError (List Weather) :=
  if m.poisoned then .error .poisonError else .ok m.contents

/-- The cache-replacement step performed by the handler under the lock
(main.rs lines 43–44): `let mut weather = app_state.weather.lock().unwrap();
*weather = data;`.  A failing `lock` propagates (the `.unwrap()` panic);
otherwise the stored sequence is overwritten whole with `data`.  The
critical section is a plain assignment, which cannot panic, so the mutex
is released unpoisoned. -/
def replace (data : List Weather) (m : MutexState) : Except LockError MutexState :=
  match lock m with
  | .error e => .error e
  | .ok _ => .ok { contents := data, poisoned := false }

/-- Body of an HTTP response produced by the handler.  `json ws` stands
for the body `HttpResponse::Ok().json(&*weather)` produces: exactly the
serde serialization of the sequence `ws`, in order (serialization is a
function of the sequence, so two bodies are equal iff the serialized
sequences are).  `empty` is the empty body of
`HttpResponse::InternalServerError().finish()`. -/
inductive RespBody where
  | empty
  | json (records : List Weather)
deriving DecidableEq, Repr

/-- An HTTP-style response of the `/weather` endpoint: status code and
body. -/
structure HttpResp where
  status : Nat
  body : RespBody
deriving DecidableEq, Repr

/-- Embeds the request handler `get_weather` (main.rs lines 39–49).  The
provider call's result is the argument `fetched` (the handler accesses
the provider only through the `WeatherService` capability, so any stub's
result can stand here).  On `Ok(data)` the handler locks the mutex
(`.unwrap()` panics on poisoning, modelled by propagating the lock
error), overwrites the stored sequence with `data`, and serializes the
stored sequence — read back after the write, under the same lock — as a
200 response.  On `Err(_)` it answers 500 with an empty body and never
touches the mutex. -/
def get_weather (fetched : Except FetchError (List Weather)) (m : MutexState) :
    Except LockError (HttpResp × MutexState) :=
  match fetched with
  | .ok data =>
    match lock m with
    | .error e => .error e
    | .ok _ =>
      let weather := data
      .ok ({ status := 200, body := .json weather }, { contents := weather, poisoned := false })
  | .error _ => .ok ({ status := 500, body := .empty }, m)

/-- Follows the spec's words for the documented alternative response
strategy: identical to the handler except that the success body
serializes the fetched sequence `data` directly instead of the cache
contents read back after the replacement. -/
def get_weather_direct (fetched : Except FetchError (List Weather)) (m : MutexState) :
    Except LockError (HttpResp × MutexState) :=
  match fetched with
  | .ok data =>
    match lock m with
    | .error e => .error e
    | .ok _ =>
      .ok ({ status := 200, body := .json data }, { contents := data, poisoned := false })
  | .error _ => .ok ({ status := 500, body := .empty }, m)

/-- One linearized operation on the cache: the mutex totally orders all
accesses, so a concurrent history is a sequence of these.  `replace s`
overwrites the stored sequence with `s` whole; `snapshot` reads the
current stored sequence. -/
inductive CacheOp where
  | replace (s : List Weather)
  | snapshot
deriving DecidableEq, Repr

/-- Stored sequence after one linearized cache operation. -/
def applyOp (st : List Weather) : CacheOp → List Weather
  | .replace s => s
  | .snapshot => st

/-- Stored sequence after running a linearized history of cache
operations from state `st`. -/
def runTrace (st : List Weather) : List CacheOp → List Weather
  | [] => st
  | op :: ops => runTrace (applyOp st op) ops

/-- The sequences returned by the `snapshot` operations of a linearized
history, in order. -/
def snapshotReturns (st : List Weather) : List CacheOp → List (List Weather)
  | [] => []
  | .replace s :: ops => snapshotReturns s ops
  | .snapshot :: ops => st :: snapshotReturns st ops

/-- Mutex states reachable by the service: the cache starts empty and
unpoisoned (main.rs line 58), and every transition is a completed handler
invocation for some provider outcome.  Snapshot-only steps do not change
the state. -/
inductive Reachable : MutexState → Prop where
  | init : Reachable { contents := [], poisoned := false }
  | step (fetched : Except FetchError (List Weather)) (m m2 : MutexState) (r : HttpResp) :
      Reachable m → get_weather fetched m = .ok (r, m2) → Reachable m2

/-- The cross-origin configuration assembled by the builder calls in
`main` (main.rs lines 62–72): the origin-admission predicate, the allowed
methods, the allowed request headers, credential support, and the
preflight max age. -/
structure CorsConfig where
  allowed_origin_fn : String → Bool
  allowed_methods : List String
  allowed_headers : List String
  supports_credentials : Bool
  max_age : Nat

/-- The nine standard HTTP methods that `Cors::permissive()` pre-fills
into the builder's allowed-methods set (actix-cors's `ALL_METHODS_SET`). -/
def allMethodsSet : List String :=
  ["GET", "POST", "PUT", "DELETE", "HEAD", "OPTIONS", "CONNECT", "PATCH", "TRACE"]

/-- Embeds the `Cors` value built in `main` (main.rs lines 62–72),
starting from the `Cors::permissive()` base of line 63 and applying the
builder calls with actix-cors's semantics:

* `.allowed_origin_fn(|origin, _| origin.as_bytes().starts_with(b"http://localhost") || origin == "null")`
  registers an origin predicate, which displaces the permissive base's
  allow-all origin rule (`validate_origin` consults the predicate once
  any origin fn is present).  The Rust closure is a byte-sequence prefix
  check against the pure-ASCII pattern `b"http://localhost"`, which on
  valid UTF-8 input coincides with the character-sequence prefix check
  used here.
* `.allowed_methods(vec!["GET"])` only *inserts* into the builder's
  allowed-methods `HashSet`, which `permissive()` pre-filled with all
  nine standard methods; inserting `GET` leaves that set unchanged
  (`List.insert` mirrors the `HashSet` insert, membership-wise).
* `.allowed_headers(vec![AUTHORIZATION, ACCEPT])` displaces the
  permissive base's allow-all header rule with the two-element set, and
  `.allowed_header(CONTENT_TYPE)` then inserts the third.
* `.supports_credentials()` and `.max_age(3600)` set those fields. -/
def corsConfig : CorsConfig where
  allowed_origin_fn := fun origin =>
    "http://localhost".data.isPrefixOf origin.data || origin == "null"
  allowed_methods := allMethodsSet.insert "GET"
  allowed_headers := ["authorization", "accept", "content-type"]
  supports_credentials := true
  max_age := 3600

end WebServer

namespace CallRequest

/-- Embeds the struct `Message { role: String, content: String }` used by
`call_gpt`. -/
structure Message where
  role : String
  content : String
deriving DecidableEq, Repr

/-- Modelled from the spec: the module `models::general::llm` declaring
`APIResponse` is not among the given sources; the shape is reconstructed
from its only use in call_request.rs, `res.choices[0].message.content`,
a `String`.  This is the message part of one completion choice. -/
structure APIMessage where
  content : String
deriving DecidableEq, Repr

/-- Modelled from the spec: one element of the `choices` list of an
`APIResponse`, carrying a message (see `APIMessage`). -/
structure APIChoice where
  message : APIMessage
deriving DecidableEq, Repr

/-- Modelled from the spec: the decoded completion-API response; per its
use in call_request.rs it exposes a list of choices. -/
structure APIResponse where
  choices : List APIChoice
deriving DecidableEq, Repr

/-- Outcome of the outbound POST made by `call_gpt`: `sendError` when
`send().await` fails, `decodeError` when the body does not decode as an
`APIResponse`, `success res` when it decodes as `res`. -/
inductive NetOutcome where
  | sendError
  | decodeError
  | success (res : APIResponse)
deriving DecidableEq, Repr

/-- How one invocation of `call_gpt` terminates: a normal `Ok(String)`
return, a normal `Err(_)` return, or a panic (which aborts the call and
never surfaces through the declared `Result` type). -/
inductive GptResult where
  | ok (response : String)
  | err
  | panicked (msg : String)
deriving DecidableEq, Repr

/-- Embeds `call_gpt` (call_request.rs lines 90–154).  Arguments model
the environment and the fallible library calls in the order the code
performs them: `key` and `org` are the values of the environment
variables `OPEN_AI_KEY` and `OPEN_AI_ORG` after `dotenv().ok()` (`none`
when unset); `keyHeaderOk` and `orgHeaderOk` are whether
`HeaderValue::from_str` accepts the respective header strings (`?` turns
a failure into `Err`); `clientBuildOk` is whether `Client::builder().build()`
succeeds; `net` is the outcome of the POST.  `env::var(..).expect(..)`
panics with the given message when the variable is unset, and
`res.choices[0]` panics with the standard out-of-bounds message when
`choices` is empty. -/
def call_gpt (key org : Option String) (keyHeaderOk orgHeaderOk clientBuildOk : Bool)
    (net : NetOutcome) : GptResult :=
  match key with
  | none => .panicked "OPEN_AI_KEY not found in environment variables"
  | some _ =>
  match org with
  | none => .panicked "OPEN_AI_ORG not found in environment variables"
  | some _ =>
  if !keyHeaderOk then .err
  else if !orgHeaderOk then .err
  else if !clientBuildOk then .err
  else
    match net with
    | .sendError => .err
    | .decodeError => .err
    | .success res =>
      match res.choices with
      | [] => .panicked "index out of bounds: the len is 0 but the index is 0"
      | c :: _ => .ok c.message.content

end CallRequest

namespace WebServer

/-- C1: for every successful provider fetch returning sequence `S`, one
invocation of the `/weather` handler (on any unpoisoned cache state, the
only kind that arises) responds with status 200 and a body that is
exactly the serialization of `S` in provider-given order, and a
subsequent read of the cache returns `S`. -/
theorem weather_success_responds_and_caches (S c : List Weather) :
    ∃ r m2, get_weather (.ok S) { contents := c, poisoned := false } = .ok (r, m2) ∧
      r.status = 200 ∧ r.body = .json S ∧ snapshotReturns m2.contents [.snapshot] = [S] :=
  ⟨_, _, rfl, rfl, rfl, rfl⟩

/-- C2: for every invocation of the `/weather` handler in which the
provider fetch fails, the handler responds with status 500 and an empty
body, and the cache state is exactly what it was before the
invocation. -/
theorem weather_failure_responds_500_cache_unchanged (e : FetchError) (m : MutexState) :
    get_weather (.error e) m = .ok ({ status := 500, body := .empty }, m) :=
  rfl

/-- C3 counterexample: an upstream response with the non-success HTTP
status 500 whose body decodes as the (empty) record sequence makes
`OpenWeatherMapClient::get_weather` return `Ok`, not `Err`: the status
code is never inspected. -/
theorem provider_ok_on_non_success_status :
    OpenWeatherMapClient.get_weather (.response 500 (some [])) = .ok [] :=
  rfl

/-- C3 amended: `OpenWeatherMapClient::get_weather` returns `Err` in
exactly two situations — network/transport failure, or a response body
that does not decode as a sequence of records; the upstream HTTP status
does not influence the result. -/
theorem provider_err_iff_transport_or_decode (out : FetchOutcome) :
    (∃ e, OpenWeatherMapClient.get_weather out = .error e) ↔
      out = .transportError ∨ ∃ s, out = .response s none := by
  cases out with
  | transportError => simp [OpenWeatherMapClient.get_weather]
  | response s decoded => cases decoded <;> simp [OpenWeatherMapClient.get_weather]

theorem runTrace_cases (ops : List CacheOp) : ∀ st : List Weather,
    runTrace st ops = st ∨ ∃ s, CacheOp.replace s ∈ ops ∧ runTrace st ops = s := by
  induction ops with
  | nil => intro st; exact Or.inl rfl
  | cons op ops ih =>
    intro st
    cases op with
    | replace s =>
      rcases ih s with h | ⟨t, ht, hr⟩
      · exact Or.inr ⟨s, List.mem_cons_self .., by simpa [runTrace, applyOp] using h⟩
      · exact Or.inr ⟨t, List.mem_cons_of_mem _ ht, by simpa [runTrace, applyOp] using hr⟩
    | snapshot =>
      rcases ih st with h | ⟨t, ht, hr⟩
      · exact Or.inl (by simpa [runTrace, applyOp] using h)
      · exact Or.inr ⟨t, List.mem_cons_of_mem _ ht, by simpa [runTrace, applyOp] using hr⟩

theorem snapshotReturns_cases (ops : List CacheOp) : ∀ st v : List Weather,
    v ∈ snapshotReturns st ops →
      v = st ∨ ∃ s, CacheOp.replace s ∈ ops ∧ v = s := by
  induction ops with
  | nil => intro st v hv; simp [snapshotReturns] at hv
  | cons op ops ih =>
    intro st v hv
    cases op with
    | replace s =>
      rcases ih s v (by simpa [snapshotReturns] using hv) with h | ⟨t, ht, hr⟩
      · exact Or.inr ⟨s, List.mem_cons_self .., h⟩
      · exact Or.inr ⟨t, List.mem_cons_of_mem _ ht, hr⟩
    | snapshot =>
      rcases (by simpa [snapshotReturns] using hv : v = st ∨ v ∈ snapshotReturns st ops) with
        h | hmem
      · exact Or.inl h
      · rcases ih st v hmem with h | ⟨t, ht, hr⟩
        · exact Or.inl h
        · exact Or.inr ⟨t, List.mem_cons_of_mem _ ht, hr⟩

/-- C4: for every linearized history of cache operations starting from
the empty initial sequence, the stored sequence at the end is either the
empty initial sequence or the complete argument of some prior `replace`,
and every value returned by a `snapshot` is such a sequence in full —
never a mixture of two different `replace` calls' elements. -/
theorem cache_atomicity (ops : List CacheOp) :
    (runTrace [] ops = [] ∨ ∃ s, CacheOp.replace s ∈ ops ∧ runTrace [] ops = s) ∧
      ∀ v ∈ snapshotReturns [] ops,
        v = [] ∨ ∃ s, CacheOp.replace s ∈ ops ∧ v = s :=
  ⟨runTrace_cases ops [], fun v hv => snapshotReturns_cases ops [] v hv⟩

/-- Witness: the atomicity statement instantiated at the concrete history
"replace with one record, then snapshot", whose single snapshot value is
the replaced sequence. -/
theorem cache_atomicity_witness :
    [(⟨1, "Clear", (1476 : Rat)/5⟩ : Weather)] ∈
        snapshotReturns [] [CacheOp.replace [⟨1, "Clear", (1476 : Rat)/5⟩], CacheOp.snapshot] ∧
      ([(⟨1, "Clear", (1476 : Rat)/5⟩ : Weather)] = [] ∨
        ∃ s, CacheOp.replace s ∈
            [CacheOp.replace [⟨1, "Clear", (1476 : Rat)/5⟩], CacheOp.snapshot] ∧
          [(⟨1, "Clear", (1476 : Rat)/5⟩ : Weather)] = s) :=
  ⟨by simp [snapshotReturns],
    (cache_atomicity [CacheOp.replace [⟨1, "Clear", (1476 : Rat)/5⟩], CacheOp.snapshot]).2
      [⟨1, "Clear", (1476 : Rat)/5⟩] (by simp [snapshotReturns])⟩

theorem reachable_poisoned_false {m : MutexState} (h : Reachable m) : m.poisoned = false := by
  induction h with
  | init => rfl
  | step fetched m m2 r _ heq ih =>
    cases fetched with
    | error e =>
      simp only [get_weather, Except.ok.injEq, Prod.mk.injEq] at heq
      exact heq.2 ▸ ih
    | ok data =>
      simp only [get_weather, lock, ih, Bool.false_eq_true, if_false, Except.ok.injEq,
        Prod.mk.injEq] at heq
      exact heq.2 ▸ rfl

/-- C5: the cache replacement always succeeds — on every reachable cache
state and for every new sequence, `replace` returns the overwritten state
and never hits the poison-error branch of `lock().unwrap()`, because no
code run while holding the lock can panic. -/
theorem replace_always_succeeds {m : MutexState} (h : Reachable m) (data : List Weather) :
    replace data m = .ok { contents := data, poisoned := false } := by
  simp [replace, lock, reachable_poisoned_false h]

/-- Witness: replacing on the initial cache state succeeds. -/
theorem replace_always_succeeds_witness :
    replace [] { contents := [], poisoned := false } =
      .ok { contents := [], poisoned := false } :=
  replace_always_succeeds Reachable.init []

/-- C6: the implemented response strategy — serializing the cache
contents read back after the replacement, under the same exclusive
acquisition — coincides, on every provider outcome and every cache state,
with the documented alternative of responding with the fetched sequence
directly. -/
theorem handler_equiv_direct_response (fetched : Except FetchError (List Weather))
    (m : MutexState) : get_weather fetched m = get_weather_direct fetched m := by
  cases fetched with
  | error e => rfl
  | ok data =>
    cases hl : lock m <;> simp [get_weather, get_weather_direct, hl]

/-- C7: reading the cache is idempotent — for every stored sequence, two
consecutive snapshots with no intervening replace return the same
sequence both times. -/
theorem snapshot_idempotent (st : List Weather) :
    ∃ v, snapshotReturns st [.snapshot, .snapshot] = [v, v] :=
  ⟨st, rfl⟩

/-- C8: evaluation of the built CORS configuration at the failing input.
Because the builder chain starts from `Cors::permissive()` and
`.allowed_methods(vec!["GET"])` only inserts into the pre-filled
all-methods set, the built value admits `POST` — indeed every one of the
nine standard methods — so the allowed method is not GET only,
contradicting the claim (and the evident intent of the code's own
`.allowed_methods(vec!["GET"])` call).  The remaining parts of the claim
do hold: the origin predicate accepts exactly the strings starting with
the characters `http://localhost` or equal to `null`, the allowed headers
are Authorization, Accept and Content-Type, and credentialed requests are
supported. -/
theorem cors_policy_code_bug :
    ("POST" ∈ corsConfig.allowed_methods ∧ corsConfig.allowed_methods ≠ ["GET"] ∧
      corsConfig.allowed_methods = allMethodsSet) ∧
    (∀ origin : String, corsConfig.allowed_origin_fn origin = true ↔
      ((∃ rest, origin = "http://localhost" ++ rest) ∨ origin = "null")) ∧
    corsConfig.allowed_headers = ["authorization", "accept", "content-type"] ∧
    corsConfig.supports_credentials = true := by
  refine ⟨by decide, fun origin => ?_, rfl, rfl⟩
  simp only [corsConfig, Bool.or_eq_true, beq_iff_eq, List.isPrefixOf_iff_prefix]
  constructor
  · rintro (⟨t, ht⟩ | h)
    · exact Or.inl ⟨⟨t⟩, (String.ext (by simpa using ht)).symm⟩
    · exact Or.inr h
  · rintro (⟨rest, hr⟩ | h)
    · exact Or.inl ⟨rest.data, by simp [hr]⟩
    · exact Or.inr h

end WebServer

namespace CallRequest

/-- C9: for every successfully decoded API response whose `choices` list
is empty, `call_gpt` panics with the out-of-bounds message instead of
returning `Err`: the access `res.choices[0]` is unguarded. -/
theorem call_gpt_panics_on_empty_choices (key org : String) :
    call_gpt (some key) (some org) true true true (.success { choices := [] }) =
      .panicked "index out of bounds: the len is 0 but the index is 0" :=
  rfl

/-- C10: whenever the environment variable `OPEN_AI_KEY` or `OPEN_AI_ORG`
is unset, `call_gpt` panics via `expect` rather than returning its
declared `Err` result, for every outcome of the later library calls. -/
theorem call_gpt_panics_on_missing_env (key org : Option String)
    (keyHeaderOk orgHeaderOk clientBuildOk : Bool) (net : NetOutcome)
    (h : key = none ∨ org = none) :
    ∃ msg, call_gpt key org keyHeaderOk orgHeaderOk clientBuildOk net =
      .panicked msg := by
  cases key with
  | none => exact ⟨"OPEN_AI_KEY not found in environment variables", rfl⟩
  | some k =>
    cases org with
    | none => exact ⟨"OPEN_AI_ORG not found in environment variables", rfl⟩
    | some o => rcases h with h | h <;> simp at h

/-- Witness: with `OPEN_AI_KEY` unset, the call panics. -/
theorem call_gpt_panics_on_missing_env_witness :
    ∃ msg, call_gpt none (some "org") true true true .sendError = .panicked msg :=
  call_gpt_panics_on_missing_env none (some "org") true true true .sendError (Or.inl rfl)

end CallRequest
